import Mathlib

/-!
Verification of the coinbase accumulation scanner (src/main.py, src/bot.py).

Shallow embedding conventions:
  * Python floats are modelled as exact rationals (ℚ); Python ints as ℤ.
  * `statistics.pstdev` is `sqrt (population variance)`: the square root is
    taken as an explicit function parameter `sqrt : ℚ → ℚ`, since an exact
    square root is not rational; no theorem below depends on its values
    except through that parameter.
  * Python dicts are insertion-ordered association lists (`dget`/`dset`/`dpop`
    mirror `d.get`, `d[k] = v`, `d.pop(k, None)` on the first occurrence of a
    key; the scanner never creates duplicate keys).
  * HTTP fetches are inputs of type `Except String _`: `.error` is a raised
    requests exception, `.ok` the parsed JSON payload (field parsing by
    `safe_float` is abstracted: level prices, candle fields arrive as ℚ).
  * `should_alert` is modelled as a pure read: the source's
    `state.setdefault(product_id, {})` inserts an empty entry, which changes
    no lookup that any reader performs (all reads use defaults).
  * Message formatting (`build_alert_message`) and file persistence
    (`load_state`/`save_state`) are presentation / IO shells and are not
    modelled; a sent alert is logged as the metrics record it was built from.
-/

namespace Scanner

/-! ## Python dict as an insertion-ordered association list -/

/-- `d.get(k)`: value at the first occurrence of key `k`. -/
def dget {α : Type} (d : List (String × α)) (k : String) : Option α :=
  match d with
  | [] => none
  | (k', v) :: rest => if k' = k then some v else dget rest k

/-- `d[k] = v`: replace in place, or append a fresh key at the end. -/
def dset {α : Type} (d : List (String × α)) (k : String) (v : α) :
    List (String × α) :=
  match d with
  | [] => [(k, v)]
  | (k', v') :: rest => if k' = k then (k, v) :: rest else (k', v') :: dset rest k v

/-- `d.pop(k, None)`: drop the key. (A Python dict holds each key once, so
dropping every occurrence coincides with `pop` on every dict-shaped list and
keeps the operation meaningful on all association lists.) -/
def dpop {α : Type} (d : List (String × α)) (k : String) : List (String × α) :=
  match d with
  | [] => []
  | (k', v') :: rest => if k' = k then dpop rest k else (k', v') :: dpop rest k

/-- A product's persisted entry: `state[product_id]` is a dict of ints
(timestamps, scores, duration buckets). -/
abbrev Entry := List (String × Int)

/-- The persisted state: `product_id -> entry`. -/
abbrev StateMap := List (String × Entry)

/-- Value of key `k` in the entry of `product_id` (the entry defaults to `{}`
as in `state.setdefault(product_id, {})`). -/
def state_get (state : StateMap) (product_id k : String) : Option Int :=
  dget ((dget state product_id).getD []) k

/-- Python truthiness of `s.get(k)` for an int-valued key: missing and `0`
are both falsy. -/
def truthy : Option Int → Bool
  | none => false
  | some v => v != 0

/-- Python's builtin `max` on two floats (first argument kept on ties),
written as an `if` so that it reduces on concrete rationals. -/
def pymax (a b : ℚ) : ℚ := if a < b then b else a

/-- Python's builtin `min` on two floats (first argument kept on ties). -/
def pymin (a b : ℚ) : ℚ := if b < a then b else a

theorem pymax_eq_max (a b : ℚ) : pymax a b = max a b := by
  unfold pymax
  split
  · exact (max_eq_right (le_of_lt (by assumption))).symm
  · exact (max_eq_left (le_of_not_lt (by assumption))).symm

theorem pymin_eq_min (a b : ℚ) : pymin a b = min a b := by
  unfold pymin
  split
  · exact (min_eq_right (le_of_lt (by assumption))).symm
  · exact (min_eq_left (le_of_not_lt (by assumption))).symm

/-! ## Configuration constants (src/main.py lines 30-64) -/

def MAX_RANGE_PCT_72H : ℚ := 8
def MIN_VOLUME_RATIO_6H_OVER_PRIOR24H : ℚ := 13 / 10
def MAX_VOLATILITY_PCT_24H : ℚ := 3
def MAX_CHANGE_PCT_24H : ℚ := 5
def MIN_QUOTE_VOL_24H_USD : ℚ := 250000
def MIN_MARKET_CAP_USD : ℚ := 10000000
def USE_SLIPPAGE_FILTER : Bool := true
def SIMULATED_ORDER_SIZE_USD : ℚ := 200
def MAX_SPREAD_PCT : ℚ := 3 / 5
def MAX_SLIPPAGE_PCT : ℚ := 4 / 5
def ALERT_COOLDOWN_HOURS : Int := 8
def SCORE_IMPROVEMENT_TO_RE_ALERT : Int := 2
def DURATION_THRESHOLDS_HOURS : List Int := [12, 24, 48]

/-! ## Data models (src/main.py lines 70-92) -/

structure Candle where
  start : Int
  low : ℚ
  high : ℚ
  open_ : ℚ
  close : ℚ
  volume_base : ℚ
deriving Repr, DecidableEq, Inhabited

structure AccumulationMetrics where
  product_id : String
  price : ℚ
  range_pct_72h : ℚ
  volatility_pct_24h : ℚ
  change_pct_24h : ℚ
  quote_vol_24h_usd : ℚ
  volume_ratio : ℚ
  spread_pct : Option ℚ := none
  slippage_pct : Option ℚ := none
  accumulation_hours : ℚ := 0
  score : Int := 0
  market_cap_usd : Option ℚ := none
deriving Repr, DecidableEq, Inhabited

/-! ## Utilities (src/main.py lines 98-127) -/

def clamp (n lo hi : ℚ) : ℚ := pymax lo (pymin hi n)

/-! ## Metric calculations (src/main.py lines 229-298) -/

/-- `compute_quote_volume_usd`: per-candle quote volume
`max(0, volume_base) * max(0, close)`. -/
def compute_quote_volume_usd (candles : List Candle) : List ℚ :=
  candles.map fun c => pymax 0 c.volume_base * pymax 0 c.close

/-- `pct_change(a, b)`: percent change from `a` to `b`, `0.0` when `a <= 0`. -/
def pct_change (a b : ℚ) : ℚ :=
  if a ≤ 0 then 0 else (b - a) / a * 100

/-- `max(...)` over a nonempty Python generator (the scanner only applies it
to nonempty lists; the `[]` default is dead). -/
def maxQ (l : List ℚ) : ℚ := l.foldl pymax ((l.head?).getD 0)

def minQ (l : List ℚ) : ℚ := l.foldl pymin ((l.head?).getD 0)

/-- Population mean. -/
def meanQ (l : List ℚ) : ℚ := l.sum / l.length

/-- `statistics.pvariance`: population variance. -/
def pvariance (l : List ℚ) : ℚ :=
  ((l.map fun x => (x - meanQ l) ^ 2).sum) / l.length

/-- `statistics.pstdev = sqrt(pvariance)`, the square root abstracted. -/
def pstdev (sqrt : ℚ → ℚ) (l : List ℚ) : ℚ := sqrt (pvariance l)

/-- Python slice `l[-n:]` (the whole list when it is shorter than `n`). -/
def takeLast {α : Type} (l : List α) (n : Nat) : List α :=
  l.drop (l.length - n)

/-- Python slice `l[-a:-b]` for `a ≥ b`: positions `len-a` (clamped to 0)
up to, excluding, `len-b` (clamped to 0). -/
def sliceLast {α : Type} (l : List α) (a b : Nat) : List α :=
  (l.drop (l.length - a)).take ((l.length - b) - (l.length - a))

/-- `calc_accumulation_metrics` (src/main.py lines 239-298). -/
def calc_accumulation_metrics (sqrt : ℚ → ℚ) (product_id : String)
    (candles_72h : List Candle) (market_cap_usd : Option ℚ) :
    Option AccumulationMetrics :=
  if candles_72h.length < 60 then none else
  -- candles_72h[-1]; the list is nonempty under the length guard
  let price := (candles_72h.getLastD default).close
  if price ≤ 0 then none else
  let hi_72 := maxQ (candles_72h.map Candle.high)
  let lo_72 := minQ (candles_72h.map Candle.low)
  let range_pct_72h := if 0 < price then (hi_72 - lo_72) / price * 100 else 999
  let candles_24h := takeLast candles_72h 24
  let closes_24h := (candles_24h.map Candle.close).filter fun x => 0 < x
  if closes_24h.length < 18 then none else
  let vol := if 1 < closes_24h.length then pstdev sqrt closes_24h else 0
  let volatility_pct_24h := if 0 < price then vol / price * 100 else 999
  let change_pct_24h :=
    pct_change ((candles_24h.head?.getD default).close)
      ((candles_24h.getLastD default).close)
  let quote_vols_72 := compute_quote_volume_usd candles_72h
  let quote_vols_24 := takeLast quote_vols_72 24
  let quote_vol_24h_usd := quote_vols_24.sum
  let recent_6 := takeLast quote_vols_72 6
  let prev_24 := sliceLast quote_vols_72 30 6
  if recent_6.length < 6 ∨ prev_24.length < 18 then none else
  let avg_recent_6 := recent_6.sum / recent_6.length
  let avg_prev_24 := prev_24.sum / prev_24.length
  let volume_ratio := if 0 < avg_prev_24 then avg_recent_6 / avg_prev_24 else 0
  some
    { product_id := product_id
      price := price
      range_pct_72h := range_pct_72h
      volatility_pct_24h := volatility_pct_24h
      change_pct_24h := change_pct_24h
      quote_vol_24h_usd := quote_vol_24h_usd
      volume_ratio := volume_ratio
      market_cap_usd := market_cap_usd }

/-! ## Spread and slippage (src/main.py lines 304-361) -/

structure BookLevel where
  price : ℚ
  size : ℚ
deriving Repr, DecidableEq, Inhabited

structure PriceBook where
  bids : List BookLevel
  asks : List BookLevel
deriving Repr, DecidableEq, Inhabited

/-- The `for lvl in asks` walk filling `order_size_usd`: returns the final
`(remaining, total_cost, total_base)`. Levels with non-positive price or size
are skipped (`continue`), and the walk breaks once `remaining <= 1e-9`. -/
def walk_asks (asks : List BookLevel) (remaining total_cost total_base : ℚ) :
    ℚ × ℚ × ℚ :=
  match asks with
  | [] => (remaining, total_cost, total_base)
  | lvl :: rest =>
    if lvl.price ≤ 0 ∨ lvl.size ≤ 0 then
      walk_asks rest remaining total_cost total_base
    else
      let lvl_cost := lvl.price * lvl.size
      let take_cost := pymin remaining lvl_cost
      let take_base := take_cost / lvl.price
      let total_cost := total_cost + take_cost
      let total_base := total_base + take_base
      let remaining := remaining - take_cost
      if remaining ≤ 1 / 1000000000 then (remaining, total_cost, total_base)
      else walk_asks rest remaining total_cost total_base

/-- `calc_spread_and_slippage`: the book fetch outcome is the input (a raised
exception is caught by the function's blanket `except` and reported as
`book_error:<type>`). Returns `(spread_pct, slippage_pct, error_reason)`. -/
def calc_spread_and_slippage (book : Except String PriceBook)
    (order_size_usd : ℚ) : Option ℚ × Option ℚ × Option String :=
  match book with
  | .error e => (none, none, some ("book_error:" ++ e))
  | .ok pb =>
    if pb.bids.isEmpty ∨ pb.asks.isEmpty then (none, none, some "empty_orderbook")
    else
      let best_bid := ((pb.bids.head?).getD default).price
      let best_ask := ((pb.asks.head?).getD default).price
      if best_bid ≤ 0 ∨ best_ask ≤ 0 then (none, none, some "bad_best_prices")
      else
        let spread_pct := (best_ask - best_bid) / best_ask * 100
        let w := walk_asks pb.asks order_size_usd 0 0
        let remaining := w.1
        let total_cost := w.2.1
        let total_base := w.2.2
        if total_base ≤ 0 ∨ total_cost ≤ 0 then
          (some spread_pct, none, some "insufficient_liquidity")
        else if 1 / 1000000 < remaining then
          (some spread_pct, none, some "insufficient_depth")
        else
          let avg_fill := total_cost / total_base
          let slippage_pct := (avg_fill - best_ask) / best_ask * 100
          (some spread_pct, some slippage_pct, none)

/-! ## Scoring (src/main.py lines 367-407) -/

/-- The pre-clamp sum accumulated by `score_metrics`. -/
def raw_score (m : AccumulationMetrics) : Int :=
  (if m.range_pct_72h ≤ 5 then 2 else if m.range_pct_72h ≤ 8 then 1 else 0)
  + (if 3 / 2 ≤ m.volume_ratio then 2
     else if 13 / 10 ≤ m.volume_ratio then 1 else 0)
  + (if m.volatility_pct_24h ≤ 2 then 2
     else if m.volatility_pct_24h ≤ 3 then 1 else 0)
  + (if 5000000 ≤ m.quote_vol_24h_usd then 2
     else if 1000000 ≤ m.quote_vol_24h_usd then 1 else 0)
  + (match m.market_cap_usd with
     | some c => if 100000000 ≤ c then 2 else if 25000000 ≤ c then 1 else 0
     | none => 0)
  + (match m.spread_pct with
     | some s => if s ≤ 3 / 10 then 1 else 0
     | none => 0)
  + (match m.slippage_pct with
     | some s => if s ≤ 2 / 5 then 1 else 0
     | none => 0)

/-- `score_metrics`: `int(clamp(score, 1, 10)) if score > 0 else 1`. -/
def score_metrics (m : AccumulationMetrics) : Int :=
  let score := raw_score m
  if 0 < score then ⌊clamp (score : ℚ) 1 10⌋ else 1

/-! ## Hard gates (src/main.py lines 413-447) -/

/-- `passes_hard_gates`: `(ok, reasons)` with `ok = (len(reasons) == 0)`. -/
def passes_hard_gates (m : AccumulationMetrics) : Bool × List String :=
  let reasons : List String :=
    (if MAX_RANGE_PCT_72H < m.range_pct_72h then ["range>8.0%"] else [])
    ++ (if m.volume_ratio < MIN_VOLUME_RATIO_6H_OVER_PRIOR24H then
          ["vol_ratio<1.30"] else [])
    ++ (if MAX_VOLATILITY_PCT_24H < m.volatility_pct_24h then
          ["volatility>3.0%"] else [])
    ++ (if MAX_CHANGE_PCT_24H < m.change_pct_24h then ["chg24h>5.0%"] else [])
    ++ (if m.quote_vol_24h_usd < MIN_QUOTE_VOL_24H_USD then
          ["liq24h<$250,000"] else [])
    ++ (match m.market_cap_usd with
        | some c => if c < MIN_MARKET_CAP_USD then ["mcap<$10,000,000"] else []
        | none => [])
    ++ (if USE_SLIPPAGE_FILTER then
          (match m.spread_pct with
           | none => ["no_spread"]
           | some s => if MAX_SPREAD_PCT < s then ["spread>0.60%"] else [])
          ++ (match m.slippage_pct with
              | none => ["no_slippage"]
              | some s => if MAX_SLIPPAGE_PCT < s then ["slip>0.80%"] else [])
        else [])
  (reasons.isEmpty, reasons)

/-! ## State / dedupe (src/main.py lines 507-559) -/

/-- The `for th in DURATION_THRESHOLDS_HOURS` bucket loop, duplicated verbatim
in `should_alert` and `record_alert`: the largest crossed threshold, else 0. -/
def duration_bucket (accumulation_hours : ℚ) : Int :=
  DURATION_THRESHOLDS_HOURS.foldl
    (fun bucket th =>
      if (Int.cast th : ℚ) ≤ accumulation_hours then th else bucket)
    (0 : Int)

/-- `update_accumulation_duration`: returns `(accumulation_hours, state')`
(the Python function mutates `state` in place and returns the hours). -/
def update_accumulation_duration (state : StateMap) (product_id : String)
    (is_accumulating : Bool) (ts : Int) : ℚ × StateMap :=
  let s := (dget state product_id).getD []
  let s :=
    if is_accumulating then
      let s :=
        if truthy (dget s "accum_start_ts") then s
        else dset s "accum_start_ts" ts
      dset s "last_accum_ts" ts
    else
      dpop (dpop s "accum_start_ts") "last_accum_ts"
  let state := dset state product_id s
  match dget s "accum_start_ts" with
  | none => (0, state)
  | some start =>
    -- `if not start: return 0.0`: a stored 0 is falsy in Python
    if start = 0 then (0, state)
    else (pymax 0 (((ts - start : Int) : ℚ) / 3600), state)

/-- `should_alert` (src/main.py lines 526-548), as a pure read (the
`setdefault` side effect inserts `{}`, observable by no reader). -/
def should_alert (state : StateMap) (m : AccumulationMetrics) (ts : Int) :
    Bool :=
  let last_alert_ts := (state_get state m.product_id "last_alert_ts").getD 0
  let last_score := (state_get state m.product_id "last_alert_score").getD 0
  let last_duration_bucket :=
    (state_get state m.product_id "last_duration_bucket").getD 0
  let cooldown_ok := decide (ALERT_COOLDOWN_HOURS * 3600 ≤ ts - last_alert_ts)
  let bucket := duration_bucket m.accumulation_hours
  let crossed_bucket := decide (last_duration_bucket < bucket)
  let improved_score := decide (SCORE_IMPROVEMENT_TO_RE_ALERT ≤ m.score - last_score)
  if last_alert_ts = 0 then true
  else if cooldown_ok && (improved_score || crossed_bucket) then true
  else false

/-- `record_alert` (src/main.py lines 550-559). -/
def record_alert (state : StateMap) (m : AccumulationMetrics) (ts : Int) :
    StateMap :=
  let s := (dget state m.product_id).getD []
  let s := dset s "last_alert_ts" ts
  let s := dset s "last_alert_score" m.score
  let s := dset s "last_duration_bucket" (duration_bucket m.accumulation_hours)
  dset state m.product_id s

/-! ## Scan loop (src/main.py lines 565-645)

The network is an input: each product of the scan arrives with the outcome of
its two fetches, and `telegram_send` outcomes are a function parameter. -/

/-- One product as the scan sees it: id and feed market cap from the products
listing, then the outcomes of `get_candles` and `get_product_book`. -/
structure ProductFetch where
  product_id : String
  market_cap : Option ℚ
  candles : Except String (List Candle)
  book : Except String PriceBook
deriving Repr, Inhabited

/-- Lines 583-587: feed market cap, `<= 0` treated as unknown. -/
def normalize_mcap : Option ℚ → Option ℚ
  | none => none
  | some v => if v ≤ 0 then none else some v

/-- Lines 595-603: attach the optional spread/slippage filter results, then
the score (which reads the spread/slippage bonuses too). -/
def enriched_metrics (p : ProductFetch) (metrics0 : AccumulationMetrics) :
    AccumulationMetrics :=
  let sl :=
    if USE_SLIPPAGE_FILTER then
      calc_spread_and_slippage p.book SIMULATED_ORDER_SIZE_USD
    else (metrics0.spread_pct, metrics0.slippage_pct, none)
  let metrics := { metrics0 with spread_pct := sl.1, slippage_pct := sl.2.1 }
  { metrics with score := score_metrics metrics }

/-- The body of the `for p in products` loop for one product: the per-product
`try/except` catches a candle-fetch exception, prints a warning and skips the
product (`continue`), leaving the state untouched. Returns the updated state
and the product's metrics when it passed the hard gates. -/
def process_product (sqrt : ℚ → ℚ) (ts : Int) (state : StateMap)
    (p : ProductFetch) : StateMap × Option AccumulationMetrics :=
  if p.product_id = "" then (state, none)
  else
    let market_cap_usd := normalize_mcap p.market_cap
    match p.candles with
    | .error _ => (state, none)
    | .ok candles =>
      match calc_accumulation_metrics sqrt p.product_id candles market_cap_usd with
      | none => (state, none)
      | some metrics0 =>
        let metrics := enriched_metrics p metrics0
        let ok := (passes_hard_gates metrics).1
        let hs := update_accumulation_duration state p.product_id ok ts
        if ok then (hs.2, some { metrics with accumulation_hours := hs.1 })
        else (hs.2, none)

/-- The whole `for p in products` loop: threads the state, collects the
gate-passing candidates in product order. -/
def process_products (sqrt : ℚ → ℚ) (ts : Int) (state : StateMap) :
    List ProductFetch → StateMap × List AccumulationMetrics
  | [] => (state, [])
  | p :: rest =>
    let r := process_product sqrt ts state p
    let rs := process_products sqrt ts r.1 rest
    (rs.1, match r.2 with
           | some m => m :: rs.2
           | none => rs.2)

/-- Strict lexicographic order on the sort key
`(score, accumulation_hours, quote_vol_24h_usd)` of line 622. -/
def sort_key_lt (a b : AccumulationMetrics) : Bool :=
  decide (a.score < b.score
    ∨ (a.score = b.score
       ∧ (a.accumulation_hours < b.accumulation_hours
          ∨ (a.accumulation_hours = b.accumulation_hours
             ∧ a.quote_vol_24h_usd < b.quote_vol_24h_usd))))

/-- Stable insertion into a descending-sorted list: `m` goes in front of the
first element whose key is not greater (so among equal keys the earlier
element stays first, as Python's stable sort keeps it). -/
def insert_desc (m : AccumulationMetrics) :
    List AccumulationMetrics → List AccumulationMetrics
  | [] => [m]
  | x :: xs => if sort_key_lt m x then x :: insert_desc m xs else m :: x :: xs

/-- `candidates.sort(key=..., reverse=True)`: Python's sort is stable, so its
output is exactly the stable descending sort by the key. -/
def sort_desc (l : List AccumulationMetrics) : List AccumulationMetrics :=
  l.foldr insert_desc []

theorem mem_insert_desc (m x : AccumulationMetrics)
    (l : List AccumulationMetrics) :
    m ∈ insert_desc x l ↔ m = x ∨ m ∈ l := by
  induction l with
  | nil => simp [insert_desc]
  | cons y ys ih =>
    unfold insert_desc
    split
    · simp only [List.mem_cons, ih]
      tauto
    · simp only [List.mem_cons]

theorem mem_sort_desc (m : AccumulationMetrics)
    (l : List AccumulationMetrics) : m ∈ sort_desc l ↔ m ∈ l := by
  induction l with
  | nil => simp [sort_desc]
  | cons y ys ih =>
    unfold sort_desc at ih ⊢
    simp only [List.foldr_cons, mem_insert_desc, List.mem_cons, ih]

/-- The `for m in top` loop (lines 627-632): alert, then record. A raised
`telegram_send` exception escapes `scan_once` (the state keeps the mutations
made so far, `record_alert` for the failed send is never reached). Returns
`(state, alerted metrics in order, escaped exception)`. -/
def alert_loop (send : AccumulationMetrics → Except String Unit) (ts : Int)
    (state : StateMap) :
    List AccumulationMetrics → StateMap × List AccumulationMetrics × Option String
  | [] => (state, [], none)
  | m :: rest =>
    if should_alert state m ts then
      match send m with
      | .error e => (state, [], some e)
      | .ok _ =>
        let state := record_alert state m ts
        let r := alert_loop send ts state rest
        (r.1, m :: r.2.1, r.2.2)
    else alert_loop send ts state rest

/-- `scan_once`: a raised `list_coinbase_products_usd` exception escapes at
once; otherwise process every product, sort the candidates best-first, take
the top 10 and run the alert loop. (`save_state` is persistence, not
modelled.) -/
def scan_once (sqrt : ℚ → ℚ) (send : AccumulationMetrics → Except String Unit)
    (ts : Int) (state : StateMap)
    (products : Except String (List ProductFetch)) :
    StateMap × List AccumulationMetrics × Option String :=
  match products with
  | .error e => (state, [], some e)
  | .ok ps =>
    let r := process_products sqrt ts state ps
    let top := (sort_desc r.2).take 10
    alert_loop send ts r.1 top

/-- One iteration's inputs for `main`'s `while True` loop. -/
structure ScanInput where
  ts : Int
  products : Except String (List ProductFetch)
  send : AccumulationMetrics → Except String Unit

/-- `main`'s loop (lines 640-645) over a finite schedule of iterations: any
exception escaping `scan_once` is caught and printed, then the loop sleeps
and runs the next scan with the state as the failed scan left it. Returns the
final state and, per iteration, the alerts sent and the caught exception. -/
def main_loop (sqrt : ℚ → ℚ) (state : StateMap) :
    List ScanInput → StateMap × List (List AccumulationMetrics × Option String)
  | [] => (state, [])
  | i :: rest =>
    let r := scan_once sqrt i.send i.ts state i.products
    let rs := main_loop sqrt r.1 rest
    (rs.1, (r.2.1, r.2.2) :: rs.2)

/-! ## Association-list lemmas -/

theorem dget_dset_self {α : Type} (d : List (String × α)) (k : String) (v : α) :
    dget (dset d k v) k = some v := by
  induction d with
  | nil => simp [dget, dset]
  | cons p rest ih =>
    obtain ⟨k', v'⟩ := p
    by_cases h : k' = k <;> simp [dget, dset, h, ih]

theorem dget_dset_ne {α : Type} (d : List (String × α)) (k k' : String) (v : α)
    (h : k' ≠ k) : dget (dset d k v) k' = dget d k' := by
  induction d with
  | nil => simp [dget, dset, Ne.symm h]
  | cons p rest ih =>
    obtain ⟨k₀, v₀⟩ := p
    by_cases h0 : k₀ = k
    · subst h0
      simp [dget, dset, Ne.symm h]
    · by_cases h1 : k₀ = k' <;> simp [dget, dset, h0, h1, h, ih]

theorem dget_dpop_self {α : Type} (d : List (String × α)) (k : String) :
    dget (dpop d k) k = none := by
  induction d with
  | nil => simp [dget, dpop]
  | cons p rest ih =>
    obtain ⟨k₀, v₀⟩ := p
    by_cases h : k₀ = k <;> simp [dget, dpop, h, ih]

theorem dget_dpop_ne {α : Type} (d : List (String × α)) (k k' : String)
    (h : k' ≠ k) : dget (dpop d k) k' = dget d k' := by
  induction d with
  | nil => simp [dget, dpop]
  | cons p rest ih =>
    obtain ⟨k₀, v₀⟩ := p
    by_cases h0 : k₀ = k
    · subst h0
      simp [dget, dpop, Ne.symm h, ih]
    · by_cases h1 : k₀ = k' <;> simp [dget, dpop, h0, h1, h, ih]

/-- The entry `record_alert` leaves for the alerted product. -/
theorem state_get_record_alert_self (state : StateMap)
    (m : AccumulationMetrics) (ts : Int) (k : String) :
    state_get (record_alert state m ts) m.product_id k =
      if k = "last_duration_bucket" then
        some (duration_bucket m.accumulation_hours)
      else if k = "last_alert_score" then some m.score
      else if k = "last_alert_ts" then some ts
      else state_get state m.product_id k := by
  unfold record_alert state_get
  rw [dget_dset_self]
  simp only [Option.getD_some]
  by_cases h1 : k = "last_duration_bucket"
  · simp [h1, dget_dset_self]
  · rw [if_neg h1, dget_dset_ne _ _ _ _ h1]
    by_cases h2 : k = "last_alert_score"
    · simp [h2, dget_dset_self]
    · rw [if_neg h2, dget_dset_ne _ _ _ _ h2]
      by_cases h3 : k = "last_alert_ts"
      · simp [h3, dget_dset_self]
      · rw [if_neg h3, dget_dset_ne _ _ _ _ h3]

/-! ## C1: alert cooldown -/

/-- C1. Alert cooldown: once `record_alert` has last written a product's
state at a time `t0 > 0`, every `should_alert` call for that product at a
time `ts` with `0 ≤ ts - t0 < ALERT_COOLDOWN_HOURS * 3600` returns `false`,
for every metrics record (any score, any accumulation duration): no second
alert decision can succeed inside the 8-hour cooldown window. -/
theorem claim_C1_alert_cooldown (state : StateMap)
    (m0 m : AccumulationMetrics) (t0 ts : Int)
    (hpid : m.product_id = m0.product_id)
    (h0 : 0 < t0) (hle : 0 ≤ ts - t0)
    (hcd : ts - t0 < ALERT_COOLDOWN_HOURS * 3600) :
    should_alert (record_alert state m0 t0) m ts = false := by
  have hts : state_get (record_alert state m0 t0) m.product_id "last_alert_ts"
      = some t0 := by
    rw [hpid, state_get_record_alert_self]
    simp
  unfold should_alert
  rw [hts]
  simp only [Option.getD_some]
  rw [if_neg (by omega : ¬ t0 = 0)]
  have hc : decide (ALERT_COOLDOWN_HOURS * 3600 ≤ ts - t0) = false := by
    simp only [decide_eq_false_iff_not, not_le]
    exact hcd
  simp [hc]

/-- A metrics record used by concrete witnesses (its numeric content is
irrelevant to the state bookkeeping). -/
def mGeneric : AccumulationMetrics :=
  { product_id := "BTC-USD"
    price := 1
    range_pct_72h := 0
    volatility_pct_24h := 0
    change_pct_24h := 0
    quote_vol_24h_usd := 0
    volume_ratio := 0 }

/-- C1 witness: recording an alert at `t0 = 1` and asking again at `ts = 2`
(1 second later, far inside the 8-hour window) yields `false`. -/
theorem claim_C1_alert_cooldown_witness :
    should_alert (record_alert [] mGeneric 1) mGeneric 2 = false :=
  claim_C1_alert_cooldown [] mGeneric mGeneric 1 2 rfl (by decide) (by decide)
    (by decide)

/-! ## C2: hard-gate characterization -/

theorem gates_ok_iff (m : AccumulationMetrics) :
    (passes_hard_gates m).1 = true ↔
      (m.range_pct_72h ≤ MAX_RANGE_PCT_72H
       ∧ MIN_VOLUME_RATIO_6H_OVER_PRIOR24H ≤ m.volume_ratio
       ∧ m.volatility_pct_24h ≤ MAX_VOLATILITY_PCT_24H
       ∧ m.change_pct_24h ≤ MAX_CHANGE_PCT_24H
       ∧ MIN_QUOTE_VOL_24H_USD ≤ m.quote_vol_24h_usd
       ∧ (∀ c, m.market_cap_usd = some c → MIN_MARKET_CAP_USD ≤ c)
       ∧ (∃ s, m.spread_pct = some s ∧ s ≤ MAX_SPREAD_PCT)
       ∧ (∃ l, m.slippage_pct = some l ∧ l ≤ MAX_SLIPPAGE_PCT)) := by
  rcases m with ⟨pid, price, range, vola, chg, qvol, ratio, spread, slip, hours, sc, mcap⟩
  rcases spread with _ | s <;> rcases slip with _ | l <;> rcases mcap with _ | c <;>
    · simp only [passes_hard_gates, USE_SLIPPAGE_FILTER, if_true]
      simp [List.isEmpty_iff, List.append_eq_nil, ite_eq_right_iff, not_lt]
      try tauto

theorem gates_ok_isEmpty (m : AccumulationMetrics) :
    (passes_hard_gates m).1 = (passes_hard_gates m).2.isEmpty := rfl

theorem gates_length (m : AccumulationMetrics) :
    (passes_hard_gates m).2.length =
      (if MAX_RANGE_PCT_72H < m.range_pct_72h then 1 else 0)
      + (if m.volume_ratio < MIN_VOLUME_RATIO_6H_OVER_PRIOR24H then 1 else 0)
      + (if MAX_VOLATILITY_PCT_24H < m.volatility_pct_24h then 1 else 0)
      + (if MAX_CHANGE_PCT_24H < m.change_pct_24h then 1 else 0)
      + (if m.quote_vol_24h_usd < MIN_QUOTE_VOL_24H_USD then 1 else 0)
      + (match m.market_cap_usd with
         | some c => if c < MIN_MARKET_CAP_USD then 1 else 0
         | none => 0)
      + (match m.spread_pct with
         | none => 1
         | some s => if MAX_SPREAD_PCT < s then 1 else 0)
      + (match m.slippage_pct with
         | none => 1
         | some l => if MAX_SLIPPAGE_PCT < l then 1 else 0) := by
  rcases m with ⟨pid, price, range, vola, chg, qvol, ratio, spread, slip, hours, sc, mcap⟩
  rcases spread with _ | s <;> rcases slip with _ | l <;> rcases mcap with _ | c <;>
    · simp only [passes_hard_gates, USE_SLIPPAGE_FILTER, if_true]
      simp [List.length_append, apply_ite List.length]
      omega

/-- C2. Gate characterization: `passes_hard_gates` succeeds exactly when all
seven thresholds hold (range ≤ 8%, volume ratio ≥ 1.3, volatility ≤ 3%,
change ≤ 5%, quote volume ≥ $250k, market cap absent or ≥ $10M, and — the
slippage filter being enabled — spread present and ≤ 0.6% and slippage
present and ≤ 0.8%); `ok` is exactly the emptiness of `reasons`, and each
failing gate contributes exactly one reason (the list's length is the number
of failing gates). -/
theorem claim_C2_gate_characterization (m : AccumulationMetrics) :
    ((passes_hard_gates m).1 = true ↔
      (m.range_pct_72h ≤ MAX_RANGE_PCT_72H
       ∧ MIN_VOLUME_RATIO_6H_OVER_PRIOR24H ≤ m.volume_ratio
       ∧ m.volatility_pct_24h ≤ MAX_VOLATILITY_PCT_24H
       ∧ m.change_pct_24h ≤ MAX_CHANGE_PCT_24H
       ∧ MIN_QUOTE_VOL_24H_USD ≤ m.quote_vol_24h_usd
       ∧ (∀ c, m.market_cap_usd = some c → MIN_MARKET_CAP_USD ≤ c)
       ∧ (∃ s, m.spread_pct = some s ∧ s ≤ MAX_SPREAD_PCT)
       ∧ (∃ l, m.slippage_pct = some l ∧ l ≤ MAX_SLIPPAGE_PCT)))
    ∧ ((passes_hard_gates m).1 = (passes_hard_gates m).2.isEmpty)
    ∧ ((passes_hard_gates m).2.length =
        (if MAX_RANGE_PCT_72H < m.range_pct_72h then 1 else 0)
        + (if m.volume_ratio < MIN_VOLUME_RATIO_6H_OVER_PRIOR24H then 1 else 0)
        + (if MAX_VOLATILITY_PCT_24H < m.volatility_pct_24h then 1 else 0)
        + (if MAX_CHANGE_PCT_24H < m.change_pct_24h then 1 else 0)
        + (if m.quote_vol_24h_usd < MIN_QUOTE_VOL_24H_USD then 1 else 0)
        + (match m.market_cap_usd with
           | some c => if c < MIN_MARKET_CAP_USD then 1 else 0
           | none => 0)
        + (match m.spread_pct with
           | none => 1
           | some s => if MAX_SPREAD_PCT < s then 1 else 0)
        + (match m.slippage_pct with
           | none => 1
           | some l => if MAX_SLIPPAGE_PCT < l then 1 else 0)) :=
  ⟨gates_ok_iff m, gates_ok_isEmpty m, gates_length m⟩

/-! ## C8: score bounds -/

set_option maxHeartbeats 2000000 in
theorem raw_score_bounds (m : AccumulationMetrics) :
    0 ≤ raw_score m ∧ raw_score m ≤ 12 := by
  rcases m with ⟨pid, price, range, vola, chg, qvol, ratio, spread, slip, hours, sc, mcap⟩
  rcases spread with _ | s <;> rcases slip with _ | l <;> rcases mcap with _ | c <;>
    · unfold raw_score
      dsimp only
      split_ifs <;> omega

/-- `int(clamp(score, 1, 10))` on an integral score is the integer clamp. -/
theorem floor_clamp_int (s : Int) : ⌊clamp (s : ℚ) 1 10⌋ = max 1 (min 10 s) := by
  have h : clamp (s : ℚ) 1 10 = ((max 1 (min 10 s) : Int) : ℚ) := by
    unfold clamp
    rw [pymax_eq_max, pymin_eq_min]
    push_cast
    rfl
  rw [h, Int.floor_intCast]

/-- C8. Score bounds: `score_metrics` always returns an integer between 1 and
10; a raw sum of 12 (every bonus) is clamped to 10 and a raw sum of 0 (no
bonus) yields 1, so the "/10" score shown in alert messages is in range. -/
theorem claim_C8_score_bounds (m : AccumulationMetrics) :
    (1 ≤ score_metrics m ∧ score_metrics m ≤ 10)
    ∧ (raw_score m = 12 → score_metrics m = 10)
    ∧ (raw_score m = 0 → score_metrics m = 1) := by
  have hb := raw_score_bounds m
  unfold score_metrics
  dsimp only
  by_cases h : 0 < raw_score m
  · rw [if_pos h, floor_clamp_int]
    refine ⟨⟨?_, ?_⟩, ?_, ?_⟩ <;> omega
  · rw [if_neg h]
    refine ⟨⟨le_refl 1, by omega⟩, fun h12 => absurd h12 (by omega), fun _ => rfl⟩

/-! ## C9: slippage calculation totality -/

/-- C9. `calc_spread_and_slippage` is total (the Lean function needs no
partiality; the Python `try/except` guarantees no exception escapes) and its
failure discipline: a slippage value is returned exactly when the error
reason is `None`; success also carries a spread; and on success the guarded
divisions had positive denominators — the filled base amount of the ask walk
is positive and the best ask (denominator of both percentage formulas) is
positive. -/
theorem claim_C9_slippage_totality (book : Except String PriceBook) (sz : ℚ) :
    ((calc_spread_and_slippage book sz).2.2 = none ↔
      (calc_spread_and_slippage book sz).2.1.isSome)
    ∧ ((calc_spread_and_slippage book sz).2.1.isSome →
        (calc_spread_and_slippage book sz).1.isSome)
    ∧ (∀ pb, book = Except.ok pb →
        (calc_spread_and_slippage book sz).2.2 = none →
        0 < (walk_asks pb.asks sz 0 0).2.2
        ∧ ∃ b bs, pb.asks = b :: bs ∧ 0 < b.price) := by
  rcases book with e | pb
  · simp [calc_spread_and_slippage]
  · rcases pb with ⟨bids, asks⟩
    rcases bids with _ | ⟨b0, brest⟩
    · simp [calc_spread_and_slippage]
    rcases asks with _ | ⟨a0, arest⟩
    · simp [calc_spread_and_slippage]
    simp only [calc_spread_and_slippage, List.isEmpty_cons, Bool.false_eq_true,
      or_self, if_false, List.head?_cons, Option.getD_some]
    split_ifs with h1 h2 h3
    · simp
    · simp
    · simp
    · refine ⟨by simp, by simp, ?_⟩
      rintro ⟨bids', asks'⟩ hpb _
      cases hpb
      push_neg at h1 h2
      exact ⟨h2.1, a0, arest, rfl, h1.2⟩

/-! ## C3: notification gating in `scan_once` -/

/-- The hard gates read no duration: updating `accumulation_hours` (done
after the gate decision, line 609) cannot change the gate outcome. -/
theorem gates_ignore_hours (m : AccumulationMetrics) (h : ℚ) :
    passes_hard_gates { m with accumulation_hours := h } = passes_hard_gates m :=
  rfl

/-- A product only ever contributes a candidate that passed every hard gate. -/
theorem process_product_gates (sqrt : ℚ → ℚ) (ts : Int) (state : StateMap)
    (p : ProductFetch) (m : AccumulationMetrics)
    (hm : (process_product sqrt ts state p).2 = some m) :
    (passes_hard_gates m).1 = true := by
  unfold process_product at hm
  by_cases hid : p.product_id = ""
  · rw [if_pos hid] at hm
    simp at hm
  rw [if_neg hid] at hm
  rcases hc : p.candles with e | candles
  · rw [hc] at hm
    simp at hm
  rw [hc] at hm
  dsimp only at hm
  rcases hcalc : calc_accumulation_metrics sqrt p.product_id candles
      (normalize_mcap p.market_cap) with _ | metrics
  · rw [hcalc] at hm
    simp at hm
  rw [hcalc] at hm
  simp only [USE_SLIPPAGE_FILTER, if_true] at hm
  split at hm
  · next hok =>
    simp only [Option.some.injEq] at hm
    subst hm
    rw [gates_ignore_hours]
    exact hok
  · simp at hm

/-- Every candidate collected by the product loop passed every hard gate. -/
theorem process_products_gates (sqrt : ℚ → ℚ) (ts : Int) :
    ∀ (ps : List ProductFetch) (state : StateMap) (m : AccumulationMetrics),
      m ∈ (process_products sqrt ts state ps).2 →
      (passes_hard_gates m).1 = true := by
  intro ps
  induction ps with
  | nil => simp [process_products]
  | cons p rest ih =>
    intro state m hm
    unfold process_products at hm
    dsimp only at hm
    rcases hr : (process_product sqrt ts state p).2 with _ | m0
    · rw [hr] at hm
      exact ih _ _ hm
    · rw [hr] at hm
      rcases List.mem_cons.mp hm with rfl | hm'
      · exact process_product_gates sqrt ts state p m hr
      · exact ih _ _ hm'

/-- Whatever the alert loop sends sits at a definite turn of its input list:
the list splits as `pre ++ m :: post`, the loop survived the prefix (no
send exception), `should_alert` approved `m` in the very state the loop
had reached after that prefix, and `m`'s own send succeeded. The state at
`m`'s turn is `(alert_loop send ts state pre).1` — the actual intermediate
state, not an arbitrary one. -/
theorem alert_loop_turns (send : AccumulationMetrics → Except String Unit)
    (ts : Int) :
    ∀ (l : List AccumulationMetrics) (state : StateMap)
      (m : AccumulationMetrics), m ∈ (alert_loop send ts state l).2.1 →
      ∃ pre post, l = pre ++ m :: post
        ∧ (alert_loop send ts state pre).2.2 = none
        ∧ should_alert (alert_loop send ts state pre).1 m ts = true
        ∧ send m = Except.ok () := by
  intro l
  induction l with
  | nil => simp [alert_loop]
  | cons m0 rest ih =>
    intro state m hm
    unfold alert_loop at hm
    by_cases hs : should_alert state m0 ts
    · rw [if_pos hs] at hm
      rcases hsend : send m0 with e | u
      · rw [hsend] at hm
        simp at hm
      · rw [hsend] at hm
        dsimp only at hm
        rcases List.mem_cons.mp hm with rfl | hm'
        · exact ⟨[], rest, rfl, rfl, hs, hsend⟩
        · obtain ⟨pre, post, heq, herr, hdec, hsendm⟩ :=
            ih (record_alert state m0 ts) m hm'
          have hstep : alert_loop send ts state (m0 :: pre)
              = ((alert_loop send ts (record_alert state m0 ts) pre).1,
                 m0 :: (alert_loop send ts (record_alert state m0 ts) pre).2.1,
                 (alert_loop send ts (record_alert state m0 ts) pre).2.2) := by
            conv_lhs => rw [alert_loop]
            rw [if_pos hs, hsend]
          refine ⟨m0 :: pre, post, by rw [List.cons_append, heq], ?_, ?_, hsendm⟩
          · rw [hstep]
            exact herr
          · rw [hstep]
            exact hdec
    · rw [if_neg hs] at hm
      obtain ⟨pre, post, heq, herr, hdec, hsendm⟩ := ih state m hm
      have hstep : alert_loop send ts state (m0 :: pre)
          = alert_loop send ts state pre := by
        conv_lhs => rw [alert_loop]
        rw [if_neg hs]
      refine ⟨m0 :: pre, post, by rw [List.cons_append, heq], ?_, ?_, hsendm⟩
      · rw [hstep]
        exact herr
      · rw [hstep]
        exact hdec

/-- C3. Notification gating: in one `scan_once`, an alert is sent for a
product only if its metrics passed every hard gate, and only at a definite
turn of the top-10 loop at which `should_alert` returned `True` in the
state the loop had actually reached there (the state after the real prefix
of earlier sends, each already recorded); and immediately after a
successful send the loop continues from the `record_alert`-updated state
(the alert is recorded before anything else happens). Products failing any
gate never reach the alert loop. -/
theorem claim_C3_notification_gating (sqrt : ℚ → ℚ)
    (send : AccumulationMetrics → Except String Unit) (ts : Int)
    (state : StateMap) (products : Except String (List ProductFetch)) :
    (∀ m ∈ (scan_once sqrt send ts state products).2.1,
       (passes_hard_gates m).1 = true)
    ∧ (∀ ps, products = Except.ok ps →
        ∀ m ∈ (scan_once sqrt send ts state products).2.1,
        ∃ pre post,
          (sort_desc (process_products sqrt ts state ps).2).take 10
              = pre ++ m :: post
          ∧ (alert_loop send ts (process_products sqrt ts state ps).1
                pre).2.2 = none
          ∧ should_alert
              (alert_loop send ts (process_products sqrt ts state ps).1
                pre).1 m ts = true
          ∧ send m = Except.ok ())
    ∧ (∀ (s : StateMap) (m : AccumulationMetrics)
         (rest : List AccumulationMetrics),
         should_alert s m ts = true → send m = Except.ok () →
         alert_loop send ts s (m :: rest) =
           ((alert_loop send ts (record_alert s m ts) rest).1,
            m :: (alert_loop send ts (record_alert s m ts) rest).2.1,
            (alert_loop send ts (record_alert s m ts) rest).2.2)) := by
  refine ⟨?_, ?_, ?_⟩
  · intro m hm
    unfold scan_once at hm
    rcases products with e | ps
    · simp at hm
    · dsimp only at hm
      obtain ⟨pre, post, heq, -, -, -⟩ := alert_loop_turns send ts _ _ m hm
      have hmem : m ∈ (sort_desc (process_products sqrt ts state ps).2).take 10 := by
        rw [heq]
        exact List.mem_append_right pre (List.mem_cons_self m post)
      have hcand : m ∈ (process_products sqrt ts state ps).2 :=
        (mem_sort_desc m _).mp (List.mem_of_mem_take hmem)
      exact process_products_gates sqrt ts ps state m hcand
  · rintro ps rfl m hm
    unfold scan_once at hm
    dsimp only at hm
    exact alert_loop_turns send ts _ _ m hm
  · intro s m rest hdec hsend
    conv_lhs => rw [alert_loop]
    rw [if_pos hdec, hsend]

/-! ## C10: accumulation-duration tracking -/

/-- Entry lookups through the two keys `update_accumulation_duration` never
touches while accumulating. -/
theorem dget_dset_last_accum (e : Entry) (v : Int) :
    dget (dset e "last_accum_ts" v) "accum_start_ts" = dget e "accum_start_ts" :=
  dget_dset_ne e _ _ v (by decide)

/-- C10 counterexample. Starting from the empty state with an accumulating
call at `ts = 0` and another at `ts = 3600` (nondecreasing timestamps): the
claim predicts the stored `accum_start_ts` stays at the first timestamp `0`
and the second call returns `(3600 - 0) / 3600 = 1.0` hours, but Python
treats the stored `0` as falsy (`if not s.get("accum_start_ts")`), so the
second call overwrites the start with `3600` and returns `0.0`. -/
theorem claim_C10_counterexample :
    (update_accumulation_duration
        (update_accumulation_duration [] "ATOM-USD" true 0).2
        "ATOM-USD" true 3600).1 = 0
    ∧ state_get
        (update_accumulation_duration
            (update_accumulation_duration [] "ATOM-USD" true 0).2
            "ATOM-USD" true 3600).2 "ATOM-USD" "accum_start_ts" = some 3600
    ∧ ((3600 - 0 : Int) : ℚ) / 3600 = 1 := by
  refine ⟨?_, ?_, by norm_num⟩ <;>
    · simp only [update_accumulation_duration, state_get, dget, dset, dpop,
        truthy, pymax]
      norm_num

/-- C10 (amended). With `is_accumulating = False` the stored start timestamp
is removed and `0.0` returned. Across consecutive accumulating calls whose
first timestamp is nonzero, the first call (seeing no stored start) installs
its timestamp, and any later call that sees a stored nonzero start keeps it
unchanged and returns `max 0 ((ts - start) / 3600)` — hence nondecreasing in
`ts` and never negative; the returned duration is never negative in any
case. (The amendment excludes a stored/initial start of 0, which Python's
falsiness check treats as absent, as the counterexample forces.) -/
theorem claim_C10_duration_tracking_amended :
    (∀ (state : StateMap) (pid : String) (ts : Int),
       (update_accumulation_duration state pid false ts).1 = 0
       ∧ state_get (update_accumulation_duration state pid false ts).2
           pid "accum_start_ts" = none)
    ∧ (∀ (state : StateMap) (pid : String) (ts : Int),
       state_get state pid "accum_start_ts" = none →
       state_get (update_accumulation_duration state pid true ts).2
           pid "accum_start_ts" = some ts
       ∧ (update_accumulation_duration state pid true ts).1 = 0)
    ∧ (∀ (state : StateMap) (pid : String) (ts t0 : Int),
       state_get state pid "accum_start_ts" = some t0 → t0 ≠ 0 →
       state_get (update_accumulation_duration state pid true ts).2
           pid "accum_start_ts" = some t0
       ∧ (update_accumulation_duration state pid true ts).1
           = max 0 (((ts - t0 : Int) : ℚ) / 3600))
    ∧ (∀ (state : StateMap) (pid : String) (b : Bool) (ts : Int),
       0 ≤ (update_accumulation_duration state pid b ts).1)
    ∧ (∀ (t0 ts ts' : Int), ts ≤ ts' →
       max (0 : ℚ) (((ts - t0 : Int) : ℚ) / 3600)
         ≤ max 0 (((ts' - t0 : Int) : ℚ) / 3600)) := by
  refine ⟨?_, ?_, ?_, ?_, ?_⟩
  · intro state pid ts
    constructor
    · unfold update_accumulation_duration
      dsimp only
      rw [if_neg (by decide : ¬ (false = true))]
      rw [dget_dpop_ne _ _ _ (by decide), dget_dpop_self]
    · unfold update_accumulation_duration state_get
      dsimp only
      rw [if_neg (by decide : ¬ (false = true))]
      rw [dget_dpop_ne _ _ _ (by decide), dget_dpop_self]
      dsimp only
      rw [dget_dset_self]
      simp only [Option.getD_some]
      rw [dget_dpop_ne _ _ _ (by decide), dget_dpop_self]
  · intro state pid ts h0
    unfold state_get at h0
    have hfalse : truthy (dget ((dget state pid).getD []) "accum_start_ts")
        = false := by
      rw [h0]
      rfl
    constructor
    · unfold update_accumulation_duration state_get
      dsimp only
      rw [if_pos rfl, hfalse]
      simp only [Bool.false_eq_true, if_false]
      rw [dget_dset_last_accum, dget_dset_self]
      dsimp only
      split <;>
        · rw [dget_dset_self]
          simp only [Option.getD_some]
          rw [dget_dset_last_accum, dget_dset_self]
    · unfold update_accumulation_duration
      dsimp only
      rw [if_pos rfl, hfalse]
      simp only [Bool.false_eq_true, if_false]
      rw [dget_dset_last_accum, dget_dset_self]
      dsimp only
      split
      · rfl
      · simp [pymax]
  · intro state pid ts t0 h0 ht0
    unfold state_get at h0
    have htr : truthy (dget ((dget state pid).getD []) "accum_start_ts")
        = true := by
      rw [h0]
      simp [truthy, ht0]
    constructor
    · unfold update_accumulation_duration state_get
      dsimp only
      rw [if_pos rfl, htr]
      simp only [if_true]
      rw [dget_dset_last_accum, h0]
      dsimp only
      rw [if_neg ht0]
      rw [dget_dset_self]
      simp only [Option.getD_some]
      rw [dget_dset_last_accum, h0]
    · unfold update_accumulation_duration
      dsimp only
      rw [if_pos rfl, htr]
      simp only [if_true]
      rw [dget_dset_last_accum, h0]
      dsimp only
      rw [if_neg ht0]
      dsimp only
      rw [pymax_eq_max]
  · intro state pid b ts
    unfold update_accumulation_duration
    dsimp only
    split
    · rfl
    · split
      · rfl
      · dsimp only
        rw [pymax_eq_max]
        exact le_max_left 0 _
  · intro t0 ts ts' h
    refine max_le_max le_rfl ?_
    refine (div_le_div_iff_of_pos_right (by norm_num)).mpr ?_
    exact_mod_cast sub_le_sub_right h t0

/-! ## C4: shape and use of the persisted state -/

theorem state_get_record_alert_other (state : StateMap)
    (m : AccumulationMetrics) (ts : Int) (pid k : String)
    (h : pid ≠ m.product_id) :
    state_get (record_alert state m ts) pid k = state_get state pid k := by
  unfold record_alert state_get
  rw [dget_dset_ne _ _ _ _ h]

theorem dget_update_accum_other (state : StateMap) (pid : String) (b : Bool)
    (ts : Int) (pid' : String) (h : pid' ≠ pid) :
    dget (update_accumulation_duration state pid b ts).2 pid'
      = dget state pid' := by
  unfold update_accumulation_duration
  dsimp only
  split
  · exact dget_dset_ne _ _ _ _ h
  · split <;> exact dget_dset_ne _ _ _ _ h

/-- The entry `update_accumulation_duration` leaves for its product. -/
theorem dget_update_accum_self (state : StateMap) (pid : String) (b : Bool)
    (ts : Int) :
    dget (update_accumulation_duration state pid b ts).2 pid =
      some (if b then
              dset (if truthy (dget ((dget state pid).getD []) "accum_start_ts")
                    then (dget state pid).getD []
                    else dset ((dget state pid).getD []) "accum_start_ts" ts)
                "last_accum_ts" ts
            else dpop (dpop ((dget state pid).getD []) "accum_start_ts")
                   "last_accum_ts") := by
  unfold update_accumulation_duration
  dsimp only
  split
  · exact dget_dset_self _ _ _
  · split <;> exact dget_dset_self _ _ _

theorem state_get_update_accum_other_keys (state : StateMap) (pid : String)
    (b : Bool) (ts : Int) (pid' k : String)
    (h1 : k ≠ "accum_start_ts") (h2 : k ≠ "last_accum_ts") :
    state_get (update_accumulation_duration state pid b ts).2 pid' k =
      state_get state pid' k := by
  by_cases hp : pid' = pid
  · subst hp
    unfold state_get
    rw [dget_update_accum_self]
    simp only [Option.getD_some]
    cases b
    · rw [if_neg (by decide : ¬ (false = true))]
      rw [dget_dpop_ne _ _ _ h2, dget_dpop_ne _ _ _ h1]
    · rw [if_pos rfl]
      rw [dget_dset_ne _ _ _ _ h2]
      split
      · rfl
      · rw [dget_dset_ne _ _ _ _ h1]
  · unfold state_get
    rw [dget_update_accum_other state pid b ts pid' hp]

/-- A metrics record twelve accumulating hours in: `record_alert` stores the
crossed duration bucket for it. -/
def mDozen : AccumulationMetrics :=
  { mGeneric with product_id := "ETH-USD", accumulation_hours := 12 }

/-- C4 counterexample. The state written for a product is not just "a
last-alert timestamp or score": `record_alert` also writes the
`last_duration_bucket` key (here 12, a duration-threshold label), and
`update_accumulation_duration` writes `accum_start_ts` — a key read for
duration tracking, not for deciding whether to send again. -/
theorem claim_C4_counterexample :
    state_get (record_alert [] mDozen 1000) "ETH-USD" "last_duration_bucket"
      = some 12
    ∧ state_get (update_accumulation_duration [] "SOL-USD" true 500).2
        "SOL-USD" "accum_start_ts" = some 500 := by
  constructor
  · decide
  · simp only [update_accumulation_duration, state_get, dget, dset, dpop,
      truthy]
    norm_num

/-- C4 (amended). The persisted state is a flat mapping from product-id
strings to a small integer-valued record under exactly five keys:
`record_alert` changes a value only at `last_alert_ts`, `last_alert_score`
or `last_duration_bucket`; `update_accumulation_duration` changes a value
only at `accum_start_ts` or `last_accum_ts`; and the alert decision
(`should_alert`) reads nothing from the state beyond the three
`record_alert` keys of the queried product. -/
theorem claim_C4_state_shape_amended :
    (∀ (state : StateMap) (m : AccumulationMetrics) (ts : Int) (pid k : String),
       state_get (record_alert state m ts) pid k ≠ state_get state pid k →
       k = "last_alert_ts" ∨ k = "last_alert_score"
         ∨ k = "last_duration_bucket")
    ∧ (∀ (state : StateMap) (pid : String) (b : Bool) (ts : Int)
         (pid' k : String),
       state_get (update_accumulation_duration state pid b ts).2 pid' k
           ≠ state_get state pid' k →
       k = "accum_start_ts" ∨ k = "last_accum_ts")
    ∧ (∀ (m : AccumulationMetrics) (ts : Int) (s s' : StateMap),
       state_get s m.product_id "last_alert_ts"
           = state_get s' m.product_id "last_alert_ts" →
       state_get s m.product_id "last_alert_score"
           = state_get s' m.product_id "last_alert_score" →
       state_get s m.product_id "last_duration_bucket"
           = state_get s' m.product_id "last_duration_bucket" →
       should_alert s m ts = should_alert s' m ts) := by
  refine ⟨?_, ?_, ?_⟩
  · intro state m ts pid k hne
    by_cases hp : pid = m.product_id
    · subst hp
      rw [state_get_record_alert_self] at hne
      by_cases k1 : k = "last_duration_bucket"
      · exact Or.inr (Or.inr k1)
      by_cases k2 : k = "last_alert_score"
      · exact Or.inr (Or.inl k2)
      by_cases k3 : k = "last_alert_ts"
      · exact Or.inl k3
      rw [if_neg k1, if_neg k2, if_neg k3] at hne
      exact absurd rfl hne
    · rw [state_get_record_alert_other state m ts pid k hp] at hne
      exact absurd rfl hne
  · intro state pid b ts pid' k hne
    by_cases k1 : k = "accum_start_ts"
    · exact Or.inl k1
    by_cases k2 : k = "last_accum_ts"
    · exact Or.inr k2
    rw [state_get_update_accum_other_keys state pid b ts pid' k k1 k2] at hne
    exact absurd rfl hne
  · intro m ts s s' h1 h2 h3
    unfold should_alert
    rw [h1, h2, h3]

/-! ## C6: failure handling -/

/-- A product whose candle fetch raises is skipped by the per-product
`except` with no state change. -/
theorem process_product_error (sqrt : ℚ → ℚ) (ts : Int) (state : StateMap)
    (p : ProductFetch) (e : String) (h : p.candles = Except.error e) :
    process_product sqrt ts state p = (state, none) := by
  unfold process_product
  by_cases hid : p.product_id = ""
  · rw [if_pos hid]
  · rw [if_neg hid]
    dsimp only
    rw [h]

/-! Concrete scan inputs used by counterexamples and witnesses. -/

/-- Square-root stand-in for concrete runs: every concrete list below has
population variance 0, where any genuine square root also returns 0. -/
def sqrt0 : ℚ → ℚ := fun _ => 0

/-- A always-succeeding `telegram_send`. -/
def send_ok : AccumulationMetrics → Except String Unit := fun _ => Except.ok ()

/-- A flat 1-hour candle at price 1 with base volume `v`. -/
def cFlat (v : ℚ) : Candle :=
  { start := 0, low := 1, high := 1, open_ := 1, close := 1, volume_base := v }

/-- 60 flat candles whose volume doubles in the last 6 hours: range 0%,
volatility 0%, change 0%, volume ratio 2.0, 24h quote volume $3M. -/
def rampCandles : List Candle :=
  List.replicate 54 (cFlat 100000) ++ List.replicate 6 (cFlat 200000)

/-- An order book with one deep level on each side: spread 0%, and a $200
market buy fills at the best ask with slippage 0%. -/
def goodBook : PriceBook :=
  { bids := [{ price := 100, size := 10 }], asks := [{ price := 100, size := 10 }] }

/-- A product that passes every hard gate. -/
def pfGood : ProductFetch :=
  { product_id := "GOOD-USD", market_cap := none,
    candles := Except.ok rampCandles, book := Except.ok goodBook }

/-- A product whose candle fetch raises an exception. -/
def pfBad : ProductFetch :=
  { product_id := "BAD-USD", market_cap := none,
    candles := Except.error "HTTPError", book := Except.error "HTTPError" }

set_option maxRecDepth 4000 in
/-- C6 counterexample. An exception is raised inside the scan (the candle
fetch of the first product), yet the claimed uniform policy — catch, print,
sleep, retry the whole loop — is not what happens: the same scan carries on,
still alerts the second product, and finishes with no escaping exception.
The per-product handler at src/main.py lines 616-619 is a second, different
recovery path. -/
theorem claim_C6_counterexample :
    pfBad.candles.isOk = false
    ∧ (scan_once sqrt0 send_ok 1000 [] (Except.ok [pfBad, pfGood])).2.2 = none
    ∧ ((scan_once sqrt0 send_ok 1000 [] (Except.ok [pfBad, pfGood])).2.1.map
        (fun m => m.product_id)) = ["GOOD-USD"] := by
  with_unfolding_all decide

/-- C6 (amended). Failure handling has two levels: an exception during one
product's processing is caught per product and only skips that product (the
scan result is as if the product were absent — no sleep, no loop retry),
while an exception escaping `scan_once` is caught by `main`'s
catch-print-sleep-retry loop, which always continues to the next iteration
with the state the failed scan left behind. -/
theorem claim_C6_failure_handling_amended :
    (∀ (sqrt : ℚ → ℚ) (ts : Int) (state : StateMap) (e : String)
       (pre post : List ProductFetch) (p : ProductFetch),
       p.candles = Except.error e →
       process_products sqrt ts state (pre ++ p :: post)
         = process_products sqrt ts state (pre ++ post))
    ∧ (∀ (sqrt : ℚ → ℚ) (send : AccumulationMetrics → Except String Unit)
       (ts : Int) (state : StateMap) (e : String)
       (pre post : List ProductFetch) (p : ProductFetch),
       p.candles = Except.error e →
       scan_once sqrt send ts state (Except.ok (pre ++ p :: post))
         = scan_once sqrt send ts state (Except.ok (pre ++ post)))
    ∧ (∀ (sqrt : ℚ → ℚ) (state : StateMap) (inputs : List ScanInput),
       (main_loop sqrt state inputs).2.length = inputs.length) := by
  have hpp : ∀ (sqrt : ℚ → ℚ) (ts : Int) (e : String)
      (pre post : List ProductFetch) (p : ProductFetch),
      p.candles = Except.error e → ∀ state,
      process_products sqrt ts state (pre ++ p :: post)
        = process_products sqrt ts state (pre ++ post) := by
    intro sqrt ts e pre post p hp
    induction pre with
    | nil =>
      intro state
      simp only [List.nil_append]
      conv_lhs => rw [process_products]
      rw [process_product_error sqrt ts state p e hp]
    | cons q pre ih =>
      intro state
      simp only [List.cons_append]
      conv_lhs => rw [process_products]
      conv_rhs => rw [process_products]
      rw [ih]
  refine ⟨fun sqrt ts state e pre post p hp => hpp sqrt ts e pre post p hp state,
    ?_, ?_⟩
  · intro sqrt send ts state e pre post p hp
    unfold scan_once
    dsimp only
    rw [hpp sqrt ts e pre post p hp state]
  · intro sqrt state inputs
    induction inputs generalizing state with
    | nil => rfl
    | cons i rest ih =>
      conv_lhs => rw [main_loop]
      dsimp only
      rw [List.length_cons, ih]
      rfl

/-! ## C7: volume-spike ratio -/

/-- Mean per-candle quote volume over the last 6 candles (`recent_6`). -/
def avg_recent_6 (cs : List Candle) : ℚ :=
  (takeLast (compute_quote_volume_usd cs) 6).sum
    / ((takeLast (compute_quote_volume_usd cs) 6).length : ℚ)

/-- Mean per-candle quote volume over list positions `-30` to `-7`
(`prev_24`, the 24 candles before the last 6). -/
def avg_prev_24 (cs : List Candle) : ℚ :=
  (sliceLast (compute_quote_volume_usd cs) 30 6).sum
    / ((sliceLast (compute_quote_volume_usd cs) 30 6).length : ℚ)

/-- C7. Volume-spike ratio: whenever `calc_accumulation_metrics` accepts a
candle list, the returned `volume_ratio` is the mean quote volume
(`max(0, volume_base) * max(0, close)` per candle) of the last 6 candles
divided by the mean over positions `-30..-7`, and `0.0` when that prior
mean is not positive; and the function returns `None` whenever the recent
window has fewer than 6 entries or the prior window fewer than 18. -/
theorem claim_C7_volume_ratio (sqrt : ℚ → ℚ) (pid : String)
    (cs : List Candle) (mc : Option ℚ) (m : AccumulationMetrics) :
    (calc_accumulation_metrics sqrt pid cs mc = some m →
       m.volume_ratio =
         if 0 < avg_prev_24 cs then avg_recent_6 cs / avg_prev_24 cs else 0)
    ∧ ((takeLast (compute_quote_volume_usd cs) 6).length < 6
         ∨ (sliceLast (compute_quote_volume_usd cs) 30 6).length < 18 →
       calc_accumulation_metrics sqrt pid cs mc = none) := by
  constructor
  · intro h
    unfold calc_accumulation_metrics at h
    split at h
    · exact absurd h (by simp)
    dsimp only at h
    split at h
    · exact absurd h (by simp)
    split at h
    · exact absurd h (by simp)
    split at h
    · exact absurd h (by simp)
    simp only [Option.some.injEq] at h
    subst h
    rfl
  · intro h
    have hq : (compute_quote_volume_usd cs).length = cs.length :=
      List.length_map _ _
    have hlen : cs.length < 60 := by
      rcases h with h | h
      · unfold takeLast at h
        rw [List.length_drop, hq] at h
        omega
      · unfold sliceLast at h
        rw [List.length_take, List.length_drop, hq] at h
        omega
    unfold calc_accumulation_metrics
    rw [if_pos hlen]

/-! ## C5: which indicators the script computes -/

/-- Modelled from the spec: no RSI implementation exists anywhere under
`src/` (nor EMA, ATR or VWAP); the spec's §8 gives "RSI of a flat series
returns 100 when average loss is zero" and the glossary fixes RSI in "their
conventional sense", so this is the conventional 14-period RSI with simple
averages: average gain over average loss on the last 14 close-to-close
moves, `100` when the average loss is zero. -/
def rsi (closes : List ℚ) : ℚ :=
  let diffs := (closes.zip closes.tail).map fun p => p.2 - p.1
  let last14 := takeLast diffs 14
  let avg_gain := (last14.map fun d => pymax d 0).sum / 14
  let avg_loss := (last14.map fun d => pymax (-d) 0).sum / 14
  if avg_loss = 0 then 100 else 100 - 100 / (1 + avg_gain / avg_loss)

/-- 60 identical candles: a flat series (RSI would be 100). -/
def flatCandles : List Candle := List.replicate 60 (cFlat 1)

/-- What the scanner computes on the flat series. -/
def flatMetrics : AccumulationMetrics :=
  { product_id := "FLAT-USD", price := 1, range_pct_72h := 0,
    volatility_pct_24h := 0, change_pct_24h := 0,
    quote_vol_24h_usd := 24, volume_ratio := 1 }

set_option maxRecDepth 4000 in
/-- C5 counterexample. On a flat 60-candle series the conventional RSI — the
value the claim says the script computes with its formula "fully given
inline" — is 100, while the script's entire computed record for that input
(every numeric field of `calc_accumulation_metrics`'s output) contains no
value 100 and no RSI/EMA/ATR/VWAP slot at all: those indicators are not
computed by this repository. -/
theorem claim_C5_counterexample :
    rsi (flatCandles.map Candle.close) = 100
    ∧ calc_accumulation_metrics sqrt0 "FLAT-USD" flatCandles none
        = some flatMetrics
    ∧ flatMetrics.price ≠ 100 ∧ flatMetrics.range_pct_72h ≠ 100
    ∧ flatMetrics.volatility_pct_24h ≠ 100 ∧ flatMetrics.change_pct_24h ≠ 100
    ∧ flatMetrics.quote_vol_24h_usd ≠ 100 ∧ flatMetrics.volume_ratio ≠ 100
    ∧ flatMetrics.accumulation_hours ≠ 100 ∧ (flatMetrics.score : ℚ) ≠ 100
    ∧ flatMetrics.spread_pct = none ∧ flatMetrics.slippage_pct = none
    ∧ flatMetrics.market_cap_usd = none := by
  with_unfolding_all decide

/-- C5 (amended). The indicator thresholds the script computes, with their
formulas inline in `calc_accumulation_metrics`, are exactly: 72h range
compression, 24h volatility (population standard deviation of the positive
closes of the last 24 candles over price), 24h percent change, 24h quote
volume, and the 6h-over-prior-24h volume-spike ratio; RSI, EMA, ATR and
VWAP are not among the computed values. -/
theorem claim_C5_indicator_coverage_amended (sqrt : ℚ → ℚ) (pid : String)
    (cs : List Candle) (mc : Option ℚ) (m : AccumulationMetrics)
    (h : calc_accumulation_metrics sqrt pid cs mc = some m) :
    m.product_id = pid
    ∧ m.price = (cs.getLastD default).close
    ∧ m.range_pct_72h
        = (maxQ (cs.map Candle.high) - minQ (cs.map Candle.low))
            / m.price * 100
    ∧ m.volatility_pct_24h
        = pstdev sqrt
            (((takeLast cs 24).map Candle.close).filter fun x => 0 < x)
            / m.price * 100
    ∧ m.change_pct_24h
        = pct_change (((takeLast cs 24).head?.getD default).close)
            (((takeLast cs 24).getLastD default).close)
    ∧ m.quote_vol_24h_usd = (takeLast (compute_quote_volume_usd cs) 24).sum
    ∧ m.volume_ratio =
        (if 0 < avg_prev_24 cs then avg_recent_6 cs / avg_prev_24 cs else 0)
    ∧ m.market_cap_usd = mc ∧ m.spread_pct = none ∧ m.slippage_pct = none
    ∧ m.score = 0 ∧ m.accumulation_hours = 0 := by
  unfold calc_accumulation_metrics at h
  split at h
  · exact absurd h (by simp)
  dsimp only at h
  split at h
  · exact absurd h (by simp)
  next hpr =>
  split at h
  · exact absurd h (by simp)
  next hcl =>
  split at h
  · exact absurd h (by simp)
  simp only [Option.some.injEq] at h
  subst h
  have hpos : 0 < (cs.getLastD default).close := lt_of_not_ge hpr
  have h18 :
      1 < (((takeLast cs 24).map Candle.close).filter fun x => 0 < x).length :=
    by omega
  refine ⟨rfl, rfl, ?_, ?_, rfl, rfl, rfl, rfl, rfl, rfl, rfl, rfl⟩
  · dsimp only
    rw [if_pos hpos]
  · dsimp only
    rw [if_pos hpos, if_pos h18]

set_option maxRecDepth 4000 in
/-- C5 amended witness: the characterization applied to the concrete flat
series. -/
theorem claim_C5_indicator_coverage_amended_witness :
    flatMetrics.quote_vol_24h_usd
      = (takeLast (compute_quote_volume_usd flatCandles) 24).sum :=
  (claim_C5_indicator_coverage_amended sqrt0 "FLAT-USD" flatCandles none
    flatMetrics (by with_unfolding_all decide)).2.2.2.2.2.1

end Scanner
